import Mathlib

/-!
Verification model of the ImageBackgroundRemover backend.

Shallow embedding of:
  * `backend/src/lib/storage.ts` — GCS storage wrapper (serverless/Vercel branch
    using raw JSON-API calls with a Workload-Identity-Federation access token,
    and a local branch using the `@google-cloud/storage` library);
  * the Clipdrop client (`removeBackground`);
  * the image transform (`flipImageHorizontally`).

External network I/O is made explicit: HTTP responses from the STS / IAM /
GCS / Clipdrop endpoints are inputs of the embedded functions, and the GCS
object store is an explicit association-list state acted on by a server
function.  JavaScript exceptions become `Except`; JS `Date.now()` becomes a
`now : Nat` parameter (milliseconds).
-/

set_option maxRecDepth 8192

namespace ImageBackgroundRemover

/-- An HTTP response as seen through `fetch`: status code and body text. -/
structure HttpResponse where
  status : Nat
  body : String
deriving Repr, DecidableEq

/-- `Response.ok` in the fetch API: status in the range 200–299. -/
def HttpResponse.ok (r : HttpResponse) : Bool :=
  200 ≤ r.status && r.status < 300

/-- A JavaScript thrown value, as discriminated by the catch handler in
`deleteImage`'s library branch (`typeof error === 'object'`, `'code' in error`,
`error.code`). -/
inductive JsError where
  /-- an object carrying a numeric `code` property (e.g. a storage `ApiError`) -/
  | objWithCode (code : Int) (message : String)
  /-- an object without a `code` property (e.g. a plain `new Error(...)`) -/
  | objNoCode (message : String)
  /-- a thrown non-object value (string, number, `null`, ...) -/
  | nonObject (message : String)
deriving Repr, DecidableEq

/-- An error escaping one of the storage functions: either a fresh
`new Error(msg)` thrown by the wrapper itself, or a library error value
rethrown as-is. -/
inductive StorageErr where
  | msg (s : String)
  | js (e : JsError)
deriving Repr, DecidableEq

/-! ### Environment configuration (`process.env`) -/

/-- The slice of `process.env` read by `storage.ts` and the Clipdrop client.
`none` models an unset variable. -/
structure StorageEnv where
  /-- `process.env.VERCEL` truthiness (`isVercelEnvironment`) -/
  vercel : Bool
  gcsBucketName : Option String
  gcsProjectId : Option String
  gcsServiceAccountEmail : Option String
  gcsWorkloadIdentityPoolProvider : Option String
deriving Repr, DecidableEq

/-- JS template-literal interpolation of a possibly-`undefined` string:
`` `${x}` `` renders `undefined` as the literal text `"undefined"`.  This is
what the non-null assertions `process.env.X!` in `getGcpAccessToken` amount to
at runtime when the variable is unset. -/
def tsTemplate (v : Option String) : String :=
  v.getD "undefined"

/-! ### Federation token exchange (`getGcpAccessToken`, storage.ts lines 8–76) -/

/-- The process-wide cached access token (`cachedAccessToken`), expiry in ms. -/
structure CachedToken where
  token : String
  expiresAt : Nat
deriving Repr, DecidableEq

/-- An outbound request of the federation exchange, recorded so that theorems
can talk about what was actually sent. -/
inductive FedRequest where
  /-- POST to `https://sts.googleapis.com/v1/token` with the given `audience`
  form field and `subject_token` -/
  | sts (audience subjectToken : String)
  /-- POST to the `generateAccessToken` impersonation URL with the given
  bearer token -/
  | impersonate (url bearerToken : String)
deriving Repr, DecidableEq

/-- The external world of the federation exchange: the Vercel OIDC token and
the responses of the STS and IAM endpoints.  On a 2xx STS response the parsed
`access_token` field is `stsAccessToken`; on a 2xx impersonation response the
parsed `accessToken` is `impersonateAccessToken` and `expireTimeMs` is
`new Date(expireTime).getTime()`. -/
structure FederationWorld where
  oidcToken : String
  sts : HttpResponse
  stsAccessToken : String
  impersonate : HttpResponse
  impersonateAccessToken : String
  impersonateExpireTimeMs : Nat
deriving Repr, DecidableEq

/-- Result of one `getGcpAccessToken` invocation: the returned token (or the
thrown error message), the cache afterwards, and the requests made. -/
structure GcpTokenOutcome where
  result : Except String String
  cache : Option CachedToken
  requests : List FedRequest
deriving Repr

/-- The cache-freshness test at the top of `getGcpAccessToken`:
`cachedAccessToken.expiresAt > Date.now() + 300000` (5-minute buffer). -/
def cacheValid (cache : Option CachedToken) (now : Nat) : Bool :=
  match cache with
  | some c => now + 300000 < c.expiresAt
  | none => false

/-- The full federation exchange (storage.ts lines 14–75): read the WIF env
vars through non-null assertions, get the Vercel OIDC token, exchange it at
STS, impersonate the service account, then cache and return the new token.
Either failing fetch throws, leaving the cache unchanged. -/
def runFederationExchange (env : StorageEnv) (world : FederationWorld)
    (cache : Option CachedToken) : GcpTokenOutcome :=
  let serviceAccountEmail := tsTemplate env.gcsServiceAccountEmail
  let workloadIdentityProvider := tsTemplate env.gcsWorkloadIdentityPoolProvider
  let stsReq := FedRequest.sts ("//iam.googleapis.com/" ++ workloadIdentityProvider)
      world.oidcToken
  if !world.sts.ok then
    { result := .error ("STS token exchange failed: " ++ world.sts.body),
      cache := cache, requests := [stsReq] }
  else
    let impUrl := "https://iamcredentials.googleapis.com/v1/projects/-/serviceAccounts/"
        ++ serviceAccountEmail ++ ":generateAccessToken"
    let impReq := FedRequest.impersonate impUrl world.stsAccessToken
    if !world.impersonate.ok then
      { result := .error ("Service account impersonation failed: " ++ world.impersonate.body),
        cache := cache, requests := [stsReq, impReq] }
    else
      { result := .ok world.impersonateAccessToken,
        cache := some { token := world.impersonateAccessToken,
                        expiresAt := world.impersonateExpireTimeMs },
        requests := [stsReq, impReq] }

/-- `getGcpAccessToken` (storage.ts lines 8–76): return the cached token if it
is still more than 5 minutes from expiry, otherwise re-run the federation
exchange. -/
def getGcpAccessToken (env : StorageEnv) (world : FederationWorld)
    (cache : Option CachedToken) (now : Nat) : GcpTokenOutcome :=
  match cache with
  | some c =>
    if now + 300000 < c.expiresAt then
      { result := .ok c.token, cache := some c, requests := [] }
    else
      runFederationExchange env world cache
  | none => runFederationExchange env world cache

/-! ### The GCS object store

The store itself is external to the repository; it is modelled as an
association list from object name to stored blob, acted on by a server
function with the JSON-API semantics the code relies on (create-or-overwrite
upload, 404 on deleting or probing a missing object). -/

/-- A stored object: blob plus content type metadata. -/
structure StoredObject where
  bytes : List Nat
  contentType : String
deriving Repr, DecidableEq

/-- The bucket contents: object name ↦ stored object. -/
def GcsState := List (String × StoredObject)

instance : DecidableEq GcsState :=
  inferInstanceAs (DecidableEq (List (String × StoredObject)))

/-- Look an object up by name. -/
def lookupObj (s : GcsState) (name : String) : Option StoredObject :=
  List.lookup name s

/-- Remove an object by name. -/
def eraseObj (s : GcsState) (name : String) : GcsState :=
  List.filter (fun kv => kv.1 != name) s

/-- Insert an object, overwriting any existing object of the same name. -/
def insertObj (s : GcsState) (name : String) (o : StoredObject) : GcsState :=
  (name, o) :: eraseObj s name

/-- A request the storage wrapper sends to the GCS JSON API. -/
inductive StorageRequest where
  /-- `POST .../upload/storage/v1/b/{bucket}/o?uploadType=media&name={fileName}` -/
  | uploadReq (bucket fileName contentType : String) (body : List Nat)
  /-- `DELETE .../storage/v1/b/{bucket}/o/{fileName}` -/
  | deleteReq (bucket fileName : String)
  /-- `GET .../storage/v1/b/{bucket}/o/{fileName}` (metadata probe) -/
  | metadataReq (bucket fileName : String)
deriving Repr, DecidableEq

/-- A GCS endpoint: maps the bucket state and a request to a response and the
state afterwards.  Kept abstract so that theorems can quantify over arbitrary
responses (auth failures, outages, ...). -/
def GcsServer := GcsState → StorageRequest → HttpResponse × GcsState

/-- The honest GCS server: upload creates or overwrites and answers 200;
delete removes and answers 204, or answers 404 when the object is missing;
the metadata probe answers 200 when present and 404 otherwise. -/
def gcsServer : GcsServer := fun store req =>
  match req with
  | .uploadReq _ fileName contentType body =>
      (⟨200, "ok"⟩, insertObj store fileName ⟨body, contentType⟩)
  | .deleteReq _ fileName =>
      if (lookupObj store fileName).isSome then (⟨204, ""⟩, eraseObj store fileName)
      else (⟨404, "No such object"⟩, store)
  | .metadataReq _ fileName =>
      (if (lookupObj store fileName).isSome then ⟨200, "ok"⟩ else ⟨404, "No such object"⟩,
       store)

/-- The `@google-cloud/storage` library's `file.delete()` against the same
store: resolves on success, rejects with an `ApiError` carrying `code: 404`
when the object does not exist. -/
def gcsLibDelete (store : GcsState) (fileName : String) :
    Except JsError Unit × GcsState :=
  if (lookupObj store fileName).isSome then (.ok (), eraseObj store fileName)
  else (.error (.objWithCode 404 "No such object"), store)

/-! ### The storage wrapper (`storage.ts`) -/

/-- `getBucketName` (storage.ts lines 78–84): throws when `GCS_BUCKET_NAME`
is unset. -/
def getBucketName (env : StorageEnv) : Except StorageErr String :=
  match env.gcsBucketName with
  | none => .error (.msg "GCS_BUCKET_NAME environment variable is not set")
  | some bucketName => .ok bucketName

/-- `getPublicUrl` (storage.ts lines 194–196): bucket/path concatenation,
no I/O. -/
def getPublicUrl (env : StorageEnv) (fileName : String) : Except StorageErr String :=
  match getBucketName env with
  | .error e => .error e
  | .ok bucketName => .ok ("https://storage.googleapis.com/" ++ bucketName ++ "/" ++ fileName)

/-- The response check in `deleteImage`'s serverless branch (storage.ts lines
148–152): any non-ok response other than 404 throws; 404 is success. -/
def deleteResponseHandler (resp : HttpResponse) : Except StorageErr Unit :=
  if !resp.ok && resp.status ≠ 404 then
    .error (.msg ("GCS delete failed: " ++ resp.body))
  else
    .ok ()

/-- The catch handler in `deleteImage`'s library branch (storage.ts lines
159–163): rethrow only values that are objects carrying a `code` property
other than 404; swallow everything else. -/
def deleteCatchHandler (e : JsError) : Except StorageErr Unit :=
  match e with
  | .objWithCode code _ => if code ≠ 404 then .error (.js e) else .ok ()
  | .objNoCode _ => .ok ()
  | .nonObject _ => .ok ()

/-- The library branch of `deleteImage` around `file.delete()`: a resolved
delete returns, a rejected one goes through the catch handler. -/
def deleteImageLibHandle (r : Except JsError Unit) : Except StorageErr Unit :=
  match r with
  | .ok _ => .ok ()
  | .error e => deleteCatchHandler e

/-- `deleteImage` (storage.ts lines 132–165).  Returns the result, the store
afterwards, and the token cache afterwards. -/
def deleteImage (env : StorageEnv) (server : GcsServer) (world : FederationWorld)
    (cache : Option CachedToken) (now : Nat) (store : GcsState) (fileName : String) :
    Except StorageErr Unit × GcsState × Option CachedToken :=
  match getBucketName env with
  | .error e => (.error e, store, cache)
  | .ok bucketName =>
    if env.vercel then
      let o := getGcpAccessToken env world cache now
      match o.result with
      | .error e => (.error (.msg e), store, o.cache)
      | .ok _ =>
        let (resp, store') := server store (.deleteReq bucketName fileName)
        (deleteResponseHandler resp, store', o.cache)
    else
      let (r, store') := gcsLibDelete store fileName
      (deleteImageLibHandle r, store', cache)

/-- `uploadImage` (storage.ts lines 87–129).  Returns the public URL (or the
thrown error), the store afterwards, and the token cache afterwards. -/
def uploadImage (env : StorageEnv) (server : GcsServer) (world : FederationWorld)
    (cache : Option CachedToken) (now : Nat) (store : GcsState)
    (imageBuffer : List Nat) (fileName contentType : String) :
    Except StorageErr String × GcsState × Option CachedToken :=
  match getBucketName env with
  | .error e => (.error e, store, cache)
  | .ok bucketName =>
    if env.vercel then
      let o := getGcpAccessToken env world cache now
      match o.result with
      | .error e => (.error (.msg e), store, o.cache)
      | .ok _ =>
        let (resp, store') := server store (.uploadReq bucketName fileName contentType imageBuffer)
        if !resp.ok then
          (.error (.msg ("GCS upload failed: " ++ resp.body)), store', o.cache)
        else
          (.ok ("https://storage.googleapis.com/" ++ bucketName ++ "/" ++ fileName),
           store', o.cache)
    else
      -- local branch: `file.save` writes the blob through the library
      let store' := insertObj store fileName ⟨imageBuffer, contentType⟩
      (.ok ("https://storage.googleapis.com/" ++ bucketName ++ "/" ++ fileName),
       store', cache)

/-- The serverless branch of `fileExists` ends in `return response.ok`
(storage.ts line 182): the HTTP status is never raised as an error. -/
def fileExistsResponseHandler (resp : HttpResponse) : Except StorageErr Bool :=
  .ok resp.ok

/-- `fileExists` (storage.ts lines 168–191). -/
def fileExists (env : StorageEnv) (server : GcsServer) (world : FederationWorld)
    (cache : Option CachedToken) (now : Nat) (store : GcsState) (fileName : String) :
    Except StorageErr Bool × GcsState × Option CachedToken :=
  match getBucketName env with
  | .error e => (.error e, store, cache)
  | .ok bucketName =>
    if env.vercel then
      let o := getGcpAccessToken env world cache now
      match o.result with
      | .error e => (.error (.msg e), store, o.cache)
      | .ok _ =>
        let (resp, store') := server store (.metadataReq bucketName fileName)
        (fileExistsResponseHandler resp, store', o.cache)
    else
      (.ok (lookupObj store fileName).isSome, store, cache)

/-! ### The Clipdrop client (`removeBackground`) -/

/-- A response of the Clipdrop endpoint as the client inspects it:
the status code, the result of `response.json()` on an error body
(`some errField` when the body parses as JSON, with `errField` the optional
`error` string field; `none` when parsing throws), the result of
`response.text()` for the fallback, and the binary body on success. -/
structure ClipdropResponse where
  status : Nat
  jsonErrorField : Option (Option String)
  textBody : String
  resultBytes : List Nat
deriving Repr, DecidableEq

/-- `Response.ok` for a Clipdrop response. -/
def ClipdropResponse.ok (r : ClipdropResponse) : Bool :=
  200 ≤ r.status && r.status < 300

/-- The best-effort error-message extraction of `removeBackground`:
start from `'Failed to remove background'`; use the JSON `error` field when
the body parses and the field is truthy; otherwise use the text body when
non-empty. -/
def extractErrorMessage (r : ClipdropResponse) : String :=
  let defaultMsg := "Failed to remove background"
  match r.jsonErrorField with
  | some errField =>
    match errField with
    | some e => if e = "" then defaultMsg else e
    | none => defaultMsg
  | none => if r.textBody = "" then defaultMsg else r.textBody

/-- The response handling of `removeBackground`: success returns the body
bytes; otherwise the status is mapped to a category-specific error, with the
extracted message only used for the residual generic case. -/
def removeBackgroundHandle (r : ClipdropResponse) : Except StorageErr (List Nat) :=
  if r.ok then .ok r.resultBytes
  else
    let errorMessage := extractErrorMessage r
    if r.status = 401 then
      .error (.msg "Invalid API Key. Please check your CLIPDROP_API_KEY.")
    else if r.status = 402 then
      .error (.msg "Insufficient credits. Please upgrade your Clipdrop plan.")
    else if r.status = 429 then
      .error (.msg "Rate limit exceeded. Please try again later.")
    else if 500 ≤ r.status then
      .error (.msg "Clipdrop service is currently unavailable. Please try again later.")
    else
      .error (.msg ("Clipdrop API Error: " ++ errorMessage))

/-- `removeBackground` (Clipdrop client): checks the API key, performs a
single `fetch` of the endpoint and handles its response.  `fetches n` is the
response the network would give to the (n+1)-st attempt; the returned `Nat`
counts the attempts actually performed. -/
def removeBackground (apiKey : Option String) (imageBuffer : List Nat)
    (fetches : Nat → ClipdropResponse) : Except StorageErr (List Nat) × Nat :=
  match apiKey with
  | none => (.error (.msg "CLIPDROP_API_KEY environment variable is not set"), 0)
  | some _ =>
    let _ := imageBuffer  -- sent as the multipart `image_file` field
    (removeBackgroundHandle (fetches 0), 1)

/-! ### Image transform (`imageProcessor.ts`)

`flipImageHorizontally` delegates to the sharp library's `flop()`; sharp is a
native dependency outside this repository, so its pixel-level behaviour is
modelled from the spec. -/

/-- One RGBA pixel. -/
structure RgbaPixel where
  r : Nat
  g : Nat
  b : Nat
  a : Nat
deriving Repr, DecidableEq

/-- A decoded raster image: a list of pixel rows. -/
structure Image where
  rows : List (List RgbaPixel)
deriving Repr, DecidableEq

/-- Pixel width (length of the first row; 0 for an empty image). -/
def Image.width (img : Image) : Nat :=
  (img.rows.headD []).length

/-- Pixel height (number of rows). -/
def Image.height (img : Image) : Nat :=
  img.rows.length

/-- Modelled from the spec: `flipImageHorizontally` (imageProcessor.ts lines
11–16) applies sharp's `flop()`, a horizontal mirror — each pixel row is
reversed.  The sharp implementation itself is not part of the repository. -/
def flipImageHorizontally (img : Image) : Image :=
  ⟨img.rows.map List.reverse⟩

/-- Modelled from the spec: the background-removal service returns a
background-stripped image over the same pixel grid as its input — each pixel
is rewritten in place (`stripPixel`), no resampling.  The service is external
to the repository. -/
def removeBackgroundImage (stripPixel : RgbaPixel → RgbaPixel) (img : Image) : Image :=
  ⟨img.rows.map (List.map stripPixel)⟩

/-- Modelled from the spec: the processing stages of the upload pipeline that
touch pixels — background removal followed by the horizontal flip — producing
the processed artifact that `upload` stores. -/
def processImage (stripPixel : RgbaPixel → RgbaPixel) (img : Image) : Image :=
  flipImageHorizontally (removeBackgroundImage stripPixel img)

/-! ### Shared helper lemmas and concrete scenarios -/

/-- Deleting an object removes it from the lookup map. -/
theorem lookupObj_eraseObj_self (s : GcsState) (name : String) :
    lookupObj (eraseObj s name) name = none := by
  show List.lookup name (List.filter (fun kv => kv.1 != name) s) = none
  induction s with
  | nil => rfl
  | cons kv t ih =>
    rw [List.filter_cons]
    by_cases h : kv.1 = name
    · simp only [h, bne_self_eq_false, Bool.false_eq_true, if_false]
      exact ih
    · have hbe : (name == kv.1) = false := by simp [Ne.symm h]
      simp only [show (kv.1 != name) = true by simp [h], if_true]
      rw [List.lookup]
      simp only [hbe]
      exact ih

/-- Inserting an object makes it the lookup result. -/
theorem lookupObj_insertObj_self (s : GcsState) (name : String) (o : StoredObject) :
    lookupObj (insertObj s name o) name = some o := by
  show List.lookup name ((name, o) :: eraseObj s name) = some o
  rw [List.lookup]
  simp

/-- With a fresh cached token, `getGcpAccessToken` returns it without any
network request. -/
theorem getGcpAccessToken_cached (env : StorageEnv) (world : FederationWorld)
    (c : CachedToken) (now : Nat) (h : now + 300000 < c.expiresAt) :
    getGcpAccessToken env world (some c) now =
      { result := .ok c.token, cache := some c, requests := [] } := by
  simp [getGcpAccessToken, h]

/-- A fully-configured serverless environment. -/
def envEx : StorageEnv :=
  { vercel := true, gcsBucketName := some "bucket", gcsProjectId := some "proj",
    gcsServiceAccountEmail := some "sa@example.iam.gserviceaccount.com",
    gcsWorkloadIdentityPoolProvider := some "projects/1/locations/global/workloadIdentityPools/p/providers/v" }

/-- A federation world in which both exchange steps succeed. -/
def worldEx : FederationWorld :=
  { oidcToken := "oidc", sts := ⟨200, "stsbody"⟩, stsAccessToken := "stsTok",
    impersonate := ⟨200, "impbody"⟩, impersonateAccessToken := "gcpTok",
    impersonateExpireTimeMs := 1000000 }

/-! ### C1 — token cache safety margin -/

/-- **C1**: `getGcpAccessToken` never returns a cached token within the
5-minute safety margin of its expiry: a cached token is returned as-is exactly
when its `expiresAt` exceeds `now + 300000`, and otherwise the full federation
exchange is re-run; when the exchange succeeds the fresh token is returned and
cached together with its expiry. -/
theorem c1_token_cache_margin (env : StorageEnv) (world : FederationWorld)
    (cache : Option CachedToken) (now : Nat) :
    (∀ c, cache = some c → now + 300000 < c.expiresAt →
      getGcpAccessToken env world cache now =
        { result := .ok c.token, cache := some c, requests := [] }) ∧
    (cacheValid cache now = false →
      getGcpAccessToken env world cache now = runFederationExchange env world cache) ∧
    (cacheValid cache now = false →
      world.sts.ok = true → world.impersonate.ok = true →
      (getGcpAccessToken env world cache now).result = .ok world.impersonateAccessToken ∧
      (getGcpAccessToken env world cache now).cache =
        some { token := world.impersonateAccessToken,
               expiresAt := world.impersonateExpireTimeMs }) := by
  refine ⟨?_, ?_, ?_⟩
  · intro c hc h
    subst hc
    exact getGcpAccessToken_cached env world c now h
  · intro hv
    match cache with
    | none => rfl
    | some c =>
      simp only [cacheValid, decide_eq_false_iff_not, not_lt] at hv
      simp [getGcpAccessToken, Nat.not_lt.mpr hv]
  · intro hv hs hi
    have hrun : getGcpAccessToken env world cache now = runFederationExchange env world cache := by
      match cache with
      | none => rfl
      | some c =>
        simp only [cacheValid, decide_eq_false_iff_not, not_lt] at hv
        simp [getGcpAccessToken, Nat.not_lt.mpr hv]
    rw [hrun]
    simp [runFederationExchange, hs, hi]

/-- Witness for C1 at concrete inputs: a cached token 300001 ms from expiry is
returned untouched with no request made, and with an expired cache the fresh
token from a successful exchange is returned and cached with its expiry. -/
theorem c1_token_cache_margin_witness :
    (getGcpAccessToken envEx worldEx (some ⟨"cached", 400001⟩) 100000 =
      { result := .ok "cached", cache := some ⟨"cached", 400001⟩, requests := [] }) ∧
    ((getGcpAccessToken envEx worldEx (some ⟨"stale", 100⟩) 100000).result = .ok "gcpTok" ∧
      (getGcpAccessToken envEx worldEx (some ⟨"stale", 100⟩) 100000).cache =
        some { token := "gcpTok", expiresAt := 1000000 }) :=
  ⟨(c1_token_cache_margin envEx worldEx (some ⟨"cached", 400001⟩) 100000).1
      ⟨"cached", 400001⟩ rfl (by decide),
   (c1_token_cache_margin envEx worldEx (some ⟨"stale", 100⟩) 100000).2.2
      (by decide) (by decide) (by decide)⟩

/-! ### C8 — exchange failure surfaces the upstream body, cache untouched -/

/-- **C8** (amended): when a federation exchange step fails, `getGcpAccessToken`
throws the upstream response body appended to the stage label —
`"STS token exchange failed: "` for the STS step and
`"Service account impersonation failed: "` (not the claimed bare
`"impersonation failed"`) for the impersonation step — no token is returned,
and the process-wide cache is left unchanged. -/
theorem c8_exchange_failure_surfaces_body (env : StorageEnv) (world : FederationWorld)
    (cache : Option CachedToken) (now : Nat) (hv : cacheValid cache now = false) :
    (world.sts.ok = false →
      (getGcpAccessToken env world cache now).result =
        .error ("STS token exchange failed: " ++ world.sts.body) ∧
      (getGcpAccessToken env world cache now).cache = cache) ∧
    (world.sts.ok = true → world.impersonate.ok = false →
      (getGcpAccessToken env world cache now).result =
        .error ("Service account impersonation failed: " ++ world.impersonate.body) ∧
      (getGcpAccessToken env world cache now).cache = cache) := by
  have hrun : getGcpAccessToken env world cache now = runFederationExchange env world cache := by
    match cache with
    | none => rfl
    | some c =>
      simp only [cacheValid, decide_eq_false_iff_not, not_lt] at hv
      simp [getGcpAccessToken, Nat.not_lt.mpr hv]
  constructor
  · intro hs
    rw [hrun]
    simp [runFederationExchange, hs]
  · intro hs hi
    rw [hrun]
    simp [runFederationExchange, hs, hi]

/-- A federation world whose impersonation step fails with body `"boom"`. -/
def worldImpFail : FederationWorld :=
  { oidcToken := "oidc", sts := ⟨200, "stsbody"⟩, stsAccessToken := "stsTok",
    impersonate := ⟨403, "boom"⟩, impersonateAccessToken := "",
    impersonateExpireTimeMs := 0 }

/-- Counterexample to C8 as stated: when impersonation fails with body
`"boom"`, the thrown message is
`"Service account impersonation failed: boom"` — it is not the body prefixed
with either claimed stage label: its first 20 characters are not
`"impersonation failed"`, and it equals neither labelled form. -/
theorem c8_counterexample :
    (getGcpAccessToken envEx worldImpFail none 0).result =
      .error "Service account impersonation failed: boom" ∧
    String.take "Service account impersonation failed: boom" 20 ≠ "impersonation failed" ∧
    "Service account impersonation failed: boom" ≠ "impersonation failed: boom" ∧
    "Service account impersonation failed: boom" ≠ "STS token exchange failed: boom" := by
  refine ⟨?_, by decide, by decide, by decide⟩
  rfl

/-- Witness for C8 at concrete inputs: an STS failure with body `"down"` and
an impersonation failure with body `"boom"`, both leaving the cache `none`. -/
theorem c8_exchange_failure_surfaces_body_witness :
    ((getGcpAccessToken envEx ⟨"oidc", ⟨500, "down"⟩, "", ⟨200, ""⟩, "", 0⟩ none 0).result =
      .error "STS token exchange failed: down" ∧
     (getGcpAccessToken envEx ⟨"oidc", ⟨500, "down"⟩, "", ⟨200, ""⟩, "", 0⟩ none 0).cache = none) ∧
    ((getGcpAccessToken envEx worldImpFail none 0).result =
      .error "Service account impersonation failed: boom" ∧
     (getGcpAccessToken envEx worldImpFail none 0).cache = none) :=
  ⟨(c8_exchange_failure_surfaces_body envEx ⟨"oidc", ⟨500, "down"⟩, "", ⟨200, ""⟩, "", 0⟩
      none 0 (by decide)).1 (by decide),
   (c8_exchange_failure_surfaces_body envEx worldImpFail none 0 (by decide)).2
      (by decide) (by decide)⟩

/-! ### C4 — missing configuration values -/

/-- **C4** (amended): the bucket name (`GCS_BUCKET_NAME`) and the API key
(`CLIPDROP_API_KEY`) are checked at their first use and raise a runtime error
when absent, with no network attempt in the API-key case; the federation
credential identifiers (`GCS_SERVICE_ACCOUNT_EMAIL`,
`GCS_WORKLOAD_IDENTITY_POOL_PROVIDER`), however, are read through non-null
assertions in `getGcpAccessToken`: when absent the resolver does not fail at
that point but proceeds with the literal text `"undefined"` interpolated into
the exchange requests. -/
theorem c4_missing_config_behaviour (env : StorageEnv) (world : FederationWorld)
    (cache : Option CachedToken) (now : Nat) (buf : List Nat)
    (fetches : Nat → ClipdropResponse) :
    (env.gcsBucketName = none →
      getBucketName env =
        .error (.msg "GCS_BUCKET_NAME environment variable is not set")) ∧
    (removeBackground none buf fetches =
      (.error (.msg "CLIPDROP_API_KEY environment variable is not set"), 0)) ∧
    (cacheValid cache now = false → env.gcsWorkloadIdentityPoolProvider = none →
      (getGcpAccessToken env world cache now).requests.head? =
        some (.sts "//iam.googleapis.com/undefined" world.oidcToken)) := by
  refine ⟨?_, rfl, ?_⟩
  · intro h
    simp [getBucketName, h]
  · intro hv hw
    have hrun : getGcpAccessToken env world cache now =
        runFederationExchange env world cache := by
      match cache with
      | none => rfl
      | some c =>
        simp only [cacheValid, decide_eq_false_iff_not, not_lt] at hv
        simp [getGcpAccessToken, Nat.not_lt.mpr hv]
    rw [hrun]
    unfold runFederationExchange
    cases hs : (!world.sts.ok) <;>
      cases hi : (!world.impersonate.ok) <;>
        simp [hs, hi, tsTemplate, hw]

/-- A serverless environment in which both federation identifiers are unset. -/
def envNoWif : StorageEnv :=
  { vercel := true, gcsBucketName := some "bucket", gcsProjectId := some "proj",
    gcsServiceAccountEmail := none, gcsWorkloadIdentityPoolProvider := none }

/-- Counterexample to C4 as stated: with `GCS_SERVICE_ACCOUNT_EMAIL` and
`GCS_WORKLOAD_IDENTITY_POOL_PROVIDER` both absent, `getGcpAccessToken` — the
first operation that needs them — does not fail: it silently proceeds, sends
exchange requests with the text `"undefined"` where the missing values belong,
and returns a token. -/
theorem c4_counterexample :
    (getGcpAccessToken envNoWif worldEx none 0).result = .ok "gcpTok" ∧
    (getGcpAccessToken envNoWif worldEx none 0).requests =
      [.sts "//iam.googleapis.com/undefined" "oidc",
       .impersonate
         "https://iamcredentials.googleapis.com/v1/projects/-/serviceAccounts/undefined:generateAccessToken"
         "stsTok"] :=
  ⟨rfl, rfl⟩

/-- An environment with every configuration value absent. -/
def envEmpty : StorageEnv := ⟨true, none, none, none, none⟩

/-- Witness for C4 at concrete inputs: a missing bucket name and a missing API
key each raise at first use, and with no cached token and a missing provider id
the first exchange request carries the text `"undefined"`. -/
theorem c4_missing_config_behaviour_witness :
    (getBucketName envEmpty =
      .error (.msg "GCS_BUCKET_NAME environment variable is not set")) ∧
    (removeBackground none [7] (fun _ => ⟨200, none, "", [1]⟩) =
      (.error (.msg "CLIPDROP_API_KEY environment variable is not set"), 0)) ∧
    ((getGcpAccessToken envNoWif worldEx none 0).requests.head? =
      some (.sts "//iam.googleapis.com/undefined" "oidc")) :=
  ⟨(c4_missing_config_behaviour envEmpty
      worldEx none 0 [7] (fun _ => ⟨200, none, "", [1]⟩)).1 rfl,
   (c4_missing_config_behaviour envNoWif worldEx none 0 [7]
      (fun _ => ⟨200, none, "", [1]⟩)).2.1,
   (c4_missing_config_behaviour envNoWif worldEx none 0 [7]
      (fun _ => ⟨200, none, "", [1]⟩)).2.2 (by decide) rfl⟩

/-! ### C2 — single attempt and status-specific errors in `removeBackground` -/

/-- **C2**: `removeBackground` performs exactly one HTTP attempt — its outcome
depends only on the first response and it counts one fetch — and maps the
status to distinct errors: 401 → invalid API key, 402 → insufficient credits,
429 → rate limit, ≥ 500 → service unavailable, any other non-success →
a generic upstream error carrying the best-effort extracted message; the 401
message differs from the 429 message. -/
theorem c2_remove_background_single_attempt_and_mapping (key : String) (buf : List Nat)
    (f g : Nat → ClipdropResponse) (r : ClipdropResponse) :
    (f 0 = g 0 →
      removeBackground (some key) buf f = removeBackground (some key) buf g) ∧
    ((removeBackground (some key) buf f).2 = 1) ∧
    ((removeBackground (some key) buf f).1 = removeBackgroundHandle (f 0)) ∧
    (r.status = 401 → removeBackgroundHandle r =
      .error (.msg "Invalid API Key. Please check your CLIPDROP_API_KEY.")) ∧
    (r.status = 402 → removeBackgroundHandle r =
      .error (.msg "Insufficient credits. Please upgrade your Clipdrop plan.")) ∧
    (r.status = 429 → removeBackgroundHandle r =
      .error (.msg "Rate limit exceeded. Please try again later.")) ∧
    (500 ≤ r.status → removeBackgroundHandle r =
      .error (.msg "Clipdrop service is currently unavailable. Please try again later.")) ∧
    (r.ok = false → r.status ≠ 401 → r.status ≠ 402 → r.status ≠ 429 → r.status < 500 →
      removeBackgroundHandle r =
        .error (.msg ("Clipdrop API Error: " ++ extractErrorMessage r))) ∧
    ("Invalid API Key. Please check your CLIPDROP_API_KEY." ≠
      "Rate limit exceeded. Please try again later.") := by
  refine ⟨?_, rfl, rfl, ?_, ?_, ?_, ?_, ?_, by decide⟩
  · intro h
    simp [removeBackground, h]
  · intro h
    simp [removeBackgroundHandle, ClipdropResponse.ok, h]
  · intro h
    simp [removeBackgroundHandle, ClipdropResponse.ok, h]
  · intro h
    simp [removeBackgroundHandle, ClipdropResponse.ok, h]
  · intro h
    have h1 : r.ok = false := by
      simp [ClipdropResponse.ok]
      omega
    have h401 : r.status ≠ 401 := by omega
    have h402 : r.status ≠ 402 := by omega
    have h429 : r.status ≠ 429 := by omega
    simp [removeBackgroundHandle, h1, h401, h402, h429, h]
  · intro hok h401 h402 h429 h500
    simp [removeBackgroundHandle, hok, h401, h402, h429, Nat.not_le.mpr h500]

/-- Witness for C2 at concrete inputs: two networks agreeing on the first
response give the same outcome, one attempt is counted, a 401 maps to the
invalid-key error, a 418 response with a JSON error body maps to the generic
upstream error with the extracted message, and the 401 and 429 messages
differ. -/
theorem c2_remove_background_single_attempt_and_mapping_witness :
    (removeBackground (some "k") [7] (fun _ => ⟨401, none, "", []⟩) =
      removeBackground (some "k") [7]
        (fun n => if n = 0 then ⟨401, none, "", []⟩ else ⟨500, none, "", []⟩)) ∧
    ((removeBackground (some "k") [7] (fun _ => ⟨401, none, "", []⟩)).2 = 1) ∧
    ((removeBackground (some "k") [7] (fun _ => ⟨401, none, "", []⟩)).1 =
      .error (.msg "Invalid API Key. Please check your CLIPDROP_API_KEY.")) ∧
    (removeBackgroundHandle ⟨418, some (some "teapot"), "", []⟩ =
      .error (.msg "Clipdrop API Error: teapot")) ∧
    ("Invalid API Key. Please check your CLIPDROP_API_KEY." ≠
      "Rate limit exceeded. Please try again later.") := by
  have h := c2_remove_background_single_attempt_and_mapping "k" [7]
    (fun _ => ⟨401, none, "", []⟩)
    (fun n => if n = 0 then ⟨401, none, "", []⟩ else ⟨500, none, "", []⟩)
    ⟨401, none, "", []⟩
  have h418 := c2_remove_background_single_attempt_and_mapping "k" [7]
    (fun _ => ⟨418, some (some "teapot"), "", []⟩)
    (fun _ => ⟨418, some (some "teapot"), "", []⟩)
    ⟨418, some (some "teapot"), "", []⟩
  refine ⟨h.1 rfl, h.2.1, ?_, ?_, h.2.2.2.2.2.2.2.2⟩
  · rw [h.2.2.1]
    exact h.2.2.2.1 rfl
  · have := h418.2.2.2.2.2.2.2.1 (by decide) (by decide) (by decide) (by decide) (by decide)
    rw [this]
    rfl

/-! ### C6 — `getPublicUrl` is pure concatenation -/

/-- **C6**: with the bucket configured, `getPublicUrl` returns exactly
`https://storage.googleapis.com/{bucket}/{path}` — a pure function of its
path argument (its type takes no store, server or network input, so the same
path and bucket always give the same string), with no existence check. -/
theorem c6_get_public_url_concatenation (env : StorageEnv) (fileName bucket : String)
    (hb : env.gcsBucketName = some bucket) :
    getPublicUrl env fileName =
      .ok ("https://storage.googleapis.com/" ++ bucket ++ "/" ++ fileName) := by
  simp [getPublicUrl, getBucketName, hb]

/-- Witness for C6 at concrete inputs. -/
theorem c6_get_public_url_concatenation_witness :
    getPublicUrl envEx "processed/abc.png" =
      .ok "https://storage.googleapis.com/bucket/processed/abc.png" := by
  have h := c6_get_public_url_concatenation envEx "processed/abc.png" "bucket" rfl
  rw [h]
  rfl

/-! ### C5 — non-404 delete failures -/

/-- **C5** (amended): in the serverless branch every non-ok delete response
other than 404 makes `deleteImage` throw `GCS delete failed: {body}`; in the
library branch a rejection carrying a numeric `code` property other than 404
is rethrown as-is, while the not-found rejection (`code: 404`) — and likewise
any rejection whose thrown value has no `code` property at all — is
swallowed. -/
theorem c5_delete_error_propagation (env : StorageEnv) (server : GcsServer)
    (world : FederationWorld) (c : CachedToken) (now : Nat) (store : GcsState)
    (fileName bucket : String) (code : Int) (m : String)
    (hb : env.gcsBucketName = some bucket) (hv : env.vercel = true)
    (hc : now + 300000 < c.expiresAt) :
    ((server store (.deleteReq bucket fileName)).1.ok = false →
      (server store (.deleteReq bucket fileName)).1.status ≠ 404 →
      (deleteImage env server world (some c) now store fileName).1 =
        .error (.msg ("GCS delete failed: " ++
          (server store (.deleteReq bucket fileName)).1.body))) ∧
    (code ≠ 404 →
      deleteImageLibHandle (.error (.objWithCode code m)) =
        .error (.js (.objWithCode code m))) ∧
    (deleteImageLibHandle (.error (.objWithCode 404 m)) = .ok ()) ∧
    (deleteImageLibHandle (.error (.objNoCode m)) = .ok ()) ∧
    (deleteImageLibHandle (.error (.nonObject m)) = .ok ()) := by
  refine ⟨?_, ?_, rfl, rfl, rfl⟩
  · intro hok h404
    unfold deleteImage
    simp only [getBucketName, hb, hv, if_true]
    rw [getGcpAccessToken_cached env world c now hc]
    rcases hsv : server store (.deleteReq bucket fileName) with ⟨resp, store'⟩
    rw [hsv] at hok h404
    simp only [hsv]
    simp [deleteResponseHandler, hok, h404]
  · intro hcode
    simp [deleteImageLibHandle, deleteCatchHandler, hcode]

/-- Counterexample to C5 as stated: in the library branch an underlying delete
failure that is not a not-found condition — a rejection whose thrown value
carries no `code` property, such as a plain network `Error` — is swallowed and
`deleteImage` returns normally instead of raising it. -/
theorem c5_counterexample :
    deleteImageLibHandle (.error (.objNoCode "socket hang up")) = .ok () ∧
    deleteImageLibHandle (.error (.nonObject "ECONNRESET")) = .ok () :=
  ⟨rfl, rfl⟩

/-- Witness for C5 at concrete inputs: a 503 delete response in the serverless
branch raises `GCS delete failed: unavailable`, and a library rejection with
`code: 500` is rethrown. -/
theorem c5_delete_error_propagation_witness :
    ((deleteImage envEx (fun s _ => (⟨503, "unavailable"⟩, s)) worldEx
        (some ⟨"tok", 400001⟩) 100000 [] "a.png").1 =
      .error (.msg "GCS delete failed: unavailable")) ∧
    (deleteImageLibHandle (.error (.objWithCode 500 "server error")) =
      .error (.js (.objWithCode 500 "server error"))) :=
  ⟨(c5_delete_error_propagation envEx (fun s _ => (⟨503, "unavailable"⟩, s)) worldEx
      ⟨"tok", 400001⟩ 100000 [] "a.png" "bucket" 500 "server error"
      rfl rfl (by decide)).1 (by decide) (by decide),
   (c5_delete_error_propagation envEx (fun s _ => (⟨503, "unavailable"⟩, s)) worldEx
      ⟨"tok", 400001⟩ 100000 [] "a.png" "bucket" 500 "server error"
      rfl rfl (by decide)).2.1 (by decide)⟩

/-! ### C10 — `fileExists` never raises on the probe status -/

/-- **C10**: in the serverless branch `fileExists` returns
`response.ok` for every metadata-probe response — any non-success status,
401 and 403 included, yields `false` and never an error, so absence and probe
failure are indistinguishable to the caller. -/
theorem c10_file_exists_status_never_raises (env : StorageEnv) (server : GcsServer)
    (world : FederationWorld) (c : CachedToken) (now : Nat) (store : GcsState)
    (fileName bucket : String)
    (hb : env.gcsBucketName = some bucket) (hv : env.vercel = true)
    (hc : now + 300000 < c.expiresAt) :
    ((fileExists env server world (some c) now store fileName).1 =
      .ok (server store (.metadataReq bucket fileName)).1.ok) ∧
    ((server store (.metadataReq bucket fileName)).1.ok = false →
      (fileExists env server world (some c) now store fileName).1 = .ok false) ∧
    ((server store (.metadataReq bucket fileName)).1.status = 401 ∨
        (server store (.metadataReq bucket fileName)).1.status = 403 ∨
        (server store (.metadataReq bucket fileName)).1.status = 404 →
      (fileExists env server world (some c) now store fileName).1 = .ok false) := by
  have hmain : (fileExists env server world (some c) now store fileName).1 =
      .ok (server store (.metadataReq bucket fileName)).1.ok := by
    unfold fileExists
    simp only [getBucketName, hb, hv, if_true]
    rw [getGcpAccessToken_cached env world c now hc]
    rcases hsv : server store (.metadataReq bucket fileName) with ⟨resp, store'⟩
    simp [fileExistsResponseHandler, hsv]
  refine ⟨hmain, ?_, ?_⟩
  · intro hok
    rw [hmain, hok]
  · intro hst
    rw [hmain]
    rcases hst with h | h | h <;> simp [HttpResponse.ok, h]

/-- Witness for C10 at concrete inputs: a server answering 403 to the probe
makes `fileExists` return `false`, not an error. -/
theorem c10_file_exists_status_never_raises_witness :
    (fileExists envEx (fun s _ => (⟨403, "Forbidden"⟩, s)) worldEx
        (some ⟨"tok", 400001⟩) 100000 [] "a.png").1 = .ok false :=
  (c10_file_exists_status_never_raises envEx (fun s _ => (⟨403, "Forbidden"⟩, s)) worldEx
      ⟨"tok", 400001⟩ 100000 [] "a.png" "bucket" rfl rfl (by decide)).2.2
    (Or.inr (Or.inl (by decide)))

/-! ### C7 — `uploadImage` writes the blob and returns the deterministic URL -/

/-- **C7**: a successful `uploadImage` writes the blob — overwriting whatever
object was at that path — and returns exactly
`https://storage.googleapis.com/{bucket}/{fileName}`, the same string
`getPublicUrl` produces for that path; no read-back beyond the write response
is involved. -/
theorem c7_upload_returns_deterministic_url (env : StorageEnv) (world : FederationWorld)
    (c : CachedToken) (now : Nat) (store : GcsState) (buf : List Nat)
    (fileName contentType bucket : String)
    (hb : env.gcsBucketName = some bucket) (hc : now + 300000 < c.expiresAt) :
    ((uploadImage env gcsServer world (some c) now store buf fileName contentType).1 =
      .ok ("https://storage.googleapis.com/" ++ bucket ++ "/" ++ fileName)) ∧
    ((uploadImage env gcsServer world (some c) now store buf fileName contentType).1 =
      getPublicUrl env fileName) ∧
    (lookupObj
        (uploadImage env gcsServer world (some c) now store buf fileName contentType).2.1
        fileName = some ⟨buf, contentType⟩) := by
  have hurl : getPublicUrl env fileName =
      .ok ("https://storage.googleapis.com/" ++ bucket ++ "/" ++ fileName) := by
    simp [getPublicUrl, getBucketName, hb]
  have hmain : uploadImage env gcsServer world (some c) now store buf fileName contentType =
      (.ok ("https://storage.googleapis.com/" ++ bucket ++ "/" ++ fileName),
       insertObj store fileName ⟨buf, contentType⟩,
       if env.vercel then some c else some c) := by
    unfold uploadImage
    simp only [getBucketName, hb]
    cases hvv : env.vercel with
    | true =>
      rw [getGcpAccessToken_cached env world c now hc]
      simp [gcsServer, HttpResponse.ok]
    | false => simp
  rw [hmain, hurl]
  refine ⟨rfl, rfl, lookupObj_insertObj_self store fileName ⟨buf, contentType⟩⟩

/-- Witness for C7 at concrete inputs: uploading over an existing object
returns the deterministic URL and leaves the new blob at the path. -/
theorem c7_upload_returns_deterministic_url_witness :
    ((uploadImage envEx gcsServer worldEx (some ⟨"tok", 400001⟩) 100000
        [("a.png", ⟨[0], "image/png"⟩)] [9, 9] "a.png" "image/png").1 =
      .ok "https://storage.googleapis.com/bucket/a.png") ∧
    (lookupObj
        (uploadImage envEx gcsServer worldEx (some ⟨"tok", 400001⟩) 100000
          [("a.png", ⟨[0], "image/png"⟩)] [9, 9] "a.png" "image/png").2.1
        "a.png" = some ⟨[9, 9], "image/png"⟩) := by
  have h := c7_upload_returns_deterministic_url envEx worldEx ⟨"tok", 400001⟩ 100000
    [("a.png", ⟨[0], "image/png"⟩)] [9, 9] "a.png" "image/png" "bucket" rfl (by decide)
  refine ⟨?_, h.2.2⟩
  rw [h.1]
  rfl

/-! ### C3 — delete is idempotent with respect to absence -/

/-- With a fresh cached token, `deleteImage` against the honest GCS server
always succeeds; it erases the object when present and leaves the store as-is
(both giving a 404-free lookup) otherwise, and keeps the cache. -/
theorem deleteImage_gcsServer_spec (env : StorageEnv) (world : FederationWorld)
    (c : CachedToken) (now : Nat) (store : GcsState) (fileName bucket : String)
    (hb : env.gcsBucketName = some bucket) (hc : now + 300000 < c.expiresAt) :
    deleteImage env gcsServer world (some c) now store fileName =
      (.ok (),
       if (lookupObj store fileName).isSome then eraseObj store fileName else store,
       some c) := by
  have htok := getGcpAccessToken_cached env world c now hc
  unfold deleteImage
  simp only [getBucketName, hb]
  cases hvv : env.vercel with
  | true =>
    rw [htok]
    simp only [gcsServer]
    cases hp : (lookupObj store fileName).isSome with
    | true => simp [hp, deleteResponseHandler, HttpResponse.ok]
    | false => simp [hp, deleteResponseHandler, HttpResponse.ok]
  | false =>
    unfold gcsLibDelete
    cases hp : (lookupObj store fileName).isSome with
    | true => simp [hp, deleteImageLibHandle]
    | false => simp [hp, deleteImageLibHandle, deleteCatchHandler]

/-- **C3**: `deleteImage` treats not-found as success — a 404 delete response
in the serverless branch, and a `code: 404` rejection in the library branch,
both return normally for every path and prior store contents — and delete
followed by `fileExists` yields `false` whether or not the path existed. -/
theorem c3_delete_idempotent_wrt_absence (env : StorageEnv) (world : FederationWorld)
    (c : CachedToken) (now : Nat) (store : GcsState) (fileName bucket : String)
    (hb : env.gcsBucketName = some bucket) (hc : now + 300000 < c.expiresAt) :
    ((deleteImage env gcsServer world (some c) now store fileName).1 = .ok ()) ∧
    ((fileExists env gcsServer world
        (deleteImage env gcsServer world (some c) now store fileName).2.2 now
        (deleteImage env gcsServer world (some c) now store fileName).2.1 fileName).1 =
      .ok false) := by
  have htok := getGcpAccessToken_cached env world c now hc
  have hdel := deleteImage_gcsServer_spec env world c now store fileName bucket hb hc
  have hlook : lookupObj
      (if (lookupObj store fileName).isSome then eraseObj store fileName else store)
      fileName = none := by
    cases hp : (lookupObj store fileName).isSome with
    | true =>
      simp only [hp, if_true]
      exact lookupObj_eraseObj_self store fileName
    | false =>
      simp only [hp, Bool.false_eq_true, if_false]
      cases hq : lookupObj store fileName with
      | none => rfl
      | some o => rw [hq] at hp; simp at hp
  refine ⟨by rw [hdel], ?_⟩
  rw [hdel]
  unfold fileExists
  simp only [getBucketName, hb]
  cases hvv : env.vercel with
  | true =>
    rw [htok]
    simp only [gcsServer]
    simp [hlook, fileExistsResponseHandler, HttpResponse.ok]
  | false =>
    simp [hlook]

/-- Witness for C3 at concrete inputs: deleting a present object and deleting
an absent one both succeed, and the follow-up existence probe answers `false`
in each case. -/
theorem c3_delete_idempotent_wrt_absence_witness :
    ((deleteImage envEx gcsServer worldEx (some ⟨"tok", 400001⟩) 100000
        [("a.png", ⟨[1], "image/png"⟩)] "a.png").1 = .ok ()) ∧
    ((fileExists envEx gcsServer worldEx
        (deleteImage envEx gcsServer worldEx (some ⟨"tok", 400001⟩) 100000
          [("a.png", ⟨[1], "image/png"⟩)] "a.png").2.2 100000
        (deleteImage envEx gcsServer worldEx (some ⟨"tok", 400001⟩) 100000
          [("a.png", ⟨[1], "image/png"⟩)] "a.png").2.1 "a.png").1 = .ok false) ∧
    ((deleteImage envEx gcsServer worldEx (some ⟨"tok", 400001⟩) 100000
        [] "missing.png").1 = .ok ()) ∧
    ((fileExists envEx gcsServer worldEx
        (deleteImage envEx gcsServer worldEx (some ⟨"tok", 400001⟩) 100000
          [] "missing.png").2.2 100000
        (deleteImage envEx gcsServer worldEx (some ⟨"tok", 400001⟩) 100000
          [] "missing.png").2.1 "missing.png").1 = .ok false) := by
  have h1 := c3_delete_idempotent_wrt_absence envEx worldEx ⟨"tok", 400001⟩ 100000
    [("a.png", ⟨[1], "image/png"⟩)] "a.png" "bucket" rfl (by decide)
  have h2 := c3_delete_idempotent_wrt_absence envEx worldEx ⟨"tok", 400001⟩ 100000
    [] "missing.png" "bucket" rfl (by decide)
  exact ⟨h1.1, h1.2, h2.1, h2.2⟩

/-! ### C9 — processed dimensions and flip involution -/

/-- **C9**: the processed artifact — background removal over the same pixel
grid followed by the horizontal flip — has the width and height of the
horizontally-mirrored source, which are the source's own width and height,
and `flipImageHorizontally` is an involution: flipping twice reproduces the
original pixel layout. -/
theorem c9_flip_involution_and_dimensions (stripPixel : RgbaPixel → RgbaPixel)
    (img : Image) :
    ((processImage stripPixel img).width = (flipImageHorizontally img).width) ∧
    ((processImage stripPixel img).height = (flipImageHorizontally img).height) ∧
    ((flipImageHorizontally img).width = img.width) ∧
    ((flipImageHorizontally img).height = img.height) ∧
    (flipImageHorizontally (flipImageHorizontally img) = img) := by
  obtain ⟨rows⟩ := img
  refine ⟨?_, ?_, ?_, ?_, ?_⟩
  · cases rows with
    | nil => rfl
    | cons r t =>
      simp [processImage, flipImageHorizontally, removeBackgroundImage, Image.width]
  · simp [processImage, flipImageHorizontally, removeBackgroundImage, Image.height]
  · cases rows with
    | nil => rfl
    | cons r t => simp [flipImageHorizontally, Image.width]
  · simp [flipImageHorizontally, Image.height]
  · simp [flipImageHorizontally, List.map_map, Function.comp_def]

end ImageBackgroundRemover
